import Mathlib

/-!
# redt1de/stacktrace: `GetTrace` and `makeSymbolBuffer`

A shallow embedding of `main.go` / `types.go`.

* Go `uint64`, `uint32`, `uintptr` values are natural numbers; arithmetic that can
  wrap is written with an explicit `% 2 ^ 64`.
* Every call into the operating system (kernel32, dbghelp, toolhelp) is answered by
  an `OS` record: what the call returned and what it wrote through its out
  parameters.  Calls made once per loop iteration are indexed by the iteration.
* The state the calls act on that matters here (the suspend count of the target
  thread, the handles opened, the arguments given to `CloseHandle`) is an explicit
  `World`.
* `defer` is an explicit stack of pending calls, run last-in first-out when the
  function returns and not run when `log.Fatal` ends the process.
* The `for` loop of `GetTrace` has no bound; the embedding takes a bound on the
  number of iterations and yields `none` when the bound is reached.
-/

namespace Stacktrace

/-! ## types.go -/

/-- The struct `StackItem` of `types.go`. -/
structure StackItem where
  RetAddress : Nat
  SymbolAddress : Nat
  ModName : String
  FuncName : String
  Offset : Nat
deriving DecidableEq, Repr

/-- Size and alignment, in bytes on amd64, of the fields of `iSYMBOL_INFO` in the
order of their declaration in `types.go`. -/
def iSYMBOL_INFO_fields : List (Nat × Nat) :=
  [ (4, 4),   -- SizeOfStruct uint32
    (4, 4),   -- TypeIndex    uint32
    (16, 8),  -- Reserved     [2]uint64
    (4, 4),   -- Index        uint32
    (4, 4),   -- Size         uint32
    (8, 8),   -- ModBase      uint64
    (4, 4),   -- Flags        uint32
    (8, 8),   -- Value        uint64
    (8, 8),   -- Address      uint64
    (4, 4),   -- Register     uint32
    (4, 4),   -- Scope        uint32
    (4, 4),   -- Tag          uint32
    (4, 4),   -- NameLen      uint32
    (4, 4),   -- MaxNameLen   uint32
    (8, 8) ]  -- Name         *byte

/-- Round `n` up to a multiple of `a`. -/
def alignUp (n a : Nat) : Nat := (n + a - 1) / a * a

/-- The offset of every field of a Go struct, then the offset just past the last
field: each field is placed at the next multiple of its alignment. -/
def fieldOffsets : Nat → List (Nat × Nat) → List Nat
  | off, [] => [off]
  | off, (sz, al) :: fs => alignUp off al :: fieldOffsets (alignUp off al + sz) fs

/-- The value of `unsafe.Sizeof` for a Go struct with the given fields: the end of
the last field rounded up to the largest field alignment. -/
def structSize (fs : List (Nat × Nat)) : Nat :=
  alignUp ((fieldOffsets 0 fs).getLastD 0) ((fs.map Prod.snd).foldl max 1)

/-! ## main.go: constants -/

def MAX_SYM_NAME : Nat := 256

/-! ## main.go: makeSymbolBuffer -/

/-- The function `makeSymbolBuffer` of `main.go`: a byte slice of
`unsafe.Sizeof(iSYMBOL_INFO{})+MAX_SYM_NAME` bytes, every byte set to `0xcc`, then
bytes 0..3 and 80..83 overwritten. -/
def makeSymbolBuffer : List Nat :=
  let symbolBuf := List.replicate (structSize iSYMBOL_INFO_fields + MAX_SYM_NAME) 0
  let symbolBuf := symbolBuf.map (fun _ => 0xcc)
  let symbolBuf := symbolBuf.set 0 0x58
  let symbolBuf := symbolBuf.set 1 0x00
  let symbolBuf := symbolBuf.set 2 0x00
  let symbolBuf := symbolBuf.set 3 0x00
  let symbolBuf := symbolBuf.set 80 0xd0
  let symbolBuf := symbolBuf.set 81 0x07
  let symbolBuf := symbolBuf.set 82 0x00
  let symbolBuf := symbolBuf.set 83 0x00
  symbolBuf

/-- The little-endian 32-bit value held in the four bytes of `buf` from `off`. -/
def le32 (buf : List Nat) (off : Nat) : Nat :=
  buf.getD off 0 + 2 ^ 8 * buf.getD (off + 1) 0 + 2 ^ 16 * buf.getD (off + 2) 0
    + 2 ^ 24 * buf.getD (off + 3) 0

/-! ## The operating system -/

/-- What `windows.OpenProcess`, `windows.OpenThread` and
`windows.CreateToolhelp32Snapshot` return: a handle and an error (`none` is Go's
`nil`). -/
structure HandleResult where
  handle : Nat
  err : Option String

/-- The outcome of `SuspendThread`: whether the thread's suspend count was
incremented (the call's return value, which `GetTrace` discards, is not the
failure sentinel), and the status `proc.Call` returns as its third value. -/
structure SuspendResult where
  suspended : Bool
  status : Option String

/-- The outcome of `GetThreadContext`: the status and the registers of `context`
that `GetTrace` reads afterwards. -/
structure ContextResult where
  status : Option String
  Rip : Nat
  Rbp : Nat
  Rsp : Nat

/-- The outcome of one `StackWalk64` call: its return value and the value of
`StackFrame.AddrPC.Offset` once it has returned. -/
structure WalkResult where
  success : Nat
  pc : Nat

/-- The outcome of one `SymFromAddr` call: its return value, its status, and what
the symbol buffer holds once it has returned: the fields `Address` and `NameLen`
and the bytes in memory from the address `&symbol.Name - 4` on. -/
structure SymResult where
  success : Nat
  status : Option String
  Address : Nat
  NameLen : Nat
  mem : Nat → Nat

/-- The outcome of `windows.GetModuleHandleEx` followed by
`windows.GetModuleBaseName`: the error and the module handle of the first, the
error of the second, the `uint16` it left in `baseName`, and the string
`windows.UTF16PtrToString(&baseName)` reads there. -/
structure ModuleResult where
  err : Option String
  hModule : Nat
  nameErr : Option String
  baseName : Nat
  name : String

/-- The fields of `windows.ModuleEntry32` that `GetTrace` reads; `ExePath` is the
string `windows.UTF16ToString(entry.ExePath[:])`. -/
structure ModuleEntry32 where
  ModBaseAddr : Nat
  ModBaseSize : Nat
  ExePath : String

/-- The outcome of `windows.CreateToolhelp32Snapshot` followed by
`windows.Module32First`: the snapshot handle and error, the error of
`Module32First`, the entry it filled in, and the entries of the snapshot after the
first. -/
structure SnapshotResult where
  snapshot : HandleResult
  firstErr : Option String
  first : ModuleEntry32
  others : List ModuleEntry32

/-- The answers of the operating system and of `path/filepath` to the calls of one
run of `GetTrace`.  `OpenProcess` and `OpenThread` are given the identifier they
are called with; the calls of the loop are given the number of the iteration,
counted from 0. -/
structure OS where
  OpenProcess : Nat → HandleResult
  OpenThread : Nat → HandleResult
  SuspendThread : SuspendResult
  GetThreadContext : ContextResult
  SymInitialize : Option String
  InitializeCriticalSection : Option String
  EnterCriticalSection : Nat → Option String
  StackWalk64 : Nat → WalkResult
  SymFromAddr : Nat → SymResult
  LeaveCriticalSection : Nat → Option String
  GetModule : Nat → ModuleResult
  Snapshot : Nat → SnapshotResult
  filepathBase : String → String

/-- The state outside `GetTrace` that its calls act on: the suspend count of the
target thread, the handles `GetTrace` has opened (an open call returned them
without an error), and the arguments of the `CloseHandle` calls made, both in the
order of the calls. -/
structure World where
  suspendCount : Nat
  opened : List Nat
  closed : List Nat
deriving DecidableEq, Repr

/-- A call registered with `defer`. -/
inductive Deferred where
  | CloseHandle (h : Nat)
  | ResumeThread (h : Nat)
  | SymCleanup (h : Nat)
  | LeaveCriticalSection
deriving DecidableEq, Repr

/-- The effect of one deferred call on the world.  `ResumeThread` decrements the
suspend count of a suspended thread and leaves a count of 0 as it is. -/
def Deferred.run : Deferred → World → World
  | .CloseHandle h, w => { w with closed := w.closed ++ [h] }
  | .ResumeThread _, w => { w with suspendCount := w.suspendCount - 1 }
  | .SymCleanup _, w => w
  | .LeaveCriticalSection, w => w

/-- Run the pending deferred calls, the most recently registered (the head) first. -/
def runDeferred : List Deferred → World → World
  | [], w => w
  | d :: ds, w => runDeferred ds (d.run w)

/-- How a call of `GetTrace` ends: it returns `(ret, err)`, or `log.Fatal` ends the
process. -/
inductive Exit where
  | returned (ret : List StackItem) (err : Option String)
  | fatal (msg : String)
deriving DecidableEq, Repr

/-- The end of a call of `GetTrace` and the world it leaves. -/
structure Final where
  exit : Exit
  world : World
deriving DecidableEq, Repr

/-- The local state of a running `GetTrace`: the slice `ret`, the stack of deferred
calls (most recent first) and the world. -/
structure Frame where
  ret : List StackItem
  deferred : List Deferred
  world : World

/-- The statement `defer d`. -/
def Frame.defer (s : Frame) (d : Deferred) : Frame :=
  { s with deferred := d :: s.deferred }

/-- Record that an open call answered `r`: the handle is open when `r.err` is
`nil`. -/
def Frame.opens (s : Frame) (r : HandleResult) : Frame :=
  match r.err with
  | none => { s with world := { s.world with opened := s.world.opened ++ [r.handle] } }
  | some _ => s

/-- Record that `SuspendThread` answered `r`: the suspend count of the thread is
one more when the call suspended it. -/
def Frame.suspends (s : Frame) (r : SuspendResult) : Frame :=
  if r.suspended then
    { s with world := { s.world with suspendCount := s.world.suspendCount + 1 } }
  else s

/-- The statement `return ret, err`: the deferred calls run, then the caller has
the result. -/
def Frame.doReturn (s : Frame) (err : Option String) : Final :=
  ⟨.returned s.ret err, runDeferred s.deferred s.world⟩

/-- The statement `log.Fatal(err)`: the process exits and no deferred call runs. -/
def Frame.doFatal (s : Frame) (msg : String) : Final :=
  ⟨.fatal msg, s.world⟩

/-! ## main.go: GetTrace -/

def benignStatus : String := "The operation completed successfully."

def invalidAddressStatus : String := "Attempt to access invalid address."

/-- The value of `e.Error()`. -/
def errorText : Option String → String
  | none => ""
  | some t => t

/-- The test `e != nil && e.Error() != "The operation completed successfully."`. -/
def hardStatus : Option String → Bool
  | none => false
  | some t => t != benignStatus

/-- The test of line 129: `e != nil && e.Error() != "The operation completed
successfully." && e.Error() != "Attempt to access invalid address."`. -/
def symHardStatus : Option String → Bool
  | none => false
  | some t => t != benignStatus && t != invalidAddressStatus

/-- The conversion `uint32(x)` of a Go `int`. -/
def toUint32 (x : Int) : Nat := (x % 2 ^ 32).toNat

/-- The difference `a - b` of two `uint64`. -/
def sub64 (a b : Nat) : Nat := (a + 2 ^ 64 - b % 2 ^ 64) % 2 ^ 64

/-- The function `ReadMemory`: the `readLen` bytes of memory from `addr` on; `mem`
gives the bytes from `addr` on. -/
def ReadMemory (mem : Nat → Nat) (readLen : Nat) : List Nat :=
  (List.range readLen).map mem

/-- The conversion `string(b)` of a byte slice: a string with one character for
every byte. -/
def bytesToString (b : List Nat) : String := ⟨b.map Char.ofNat⟩

/-- Lines 139 to 162: the `StackItem` appended when `SymFromAddr` returned 1. -/
def resolvedItem (pc : Nat) (sym : SymResult) (m : ModuleResult) : StackItem :=
  let modName :=
    if m.err = none then
      if m.nameErr = none ∧ m.baseName ≠ 0 then m.name else "UNKNOWN"
    else "UNKNOWN"
  let funcName := bytesToString (ReadMemory sym.mem sym.NameLen)
  { RetAddress := pc
    SymbolAddress := sym.Address
    ModName := modName
    FuncName := funcName
    Offset := sub64 pc sym.Address }

/-- Lines 165 to 190, the calls apart: the `StackItem` appended when `SymFromAddr`
did not return 1, with `entry` as `Module32First` filled it. -/
def unresolvedItem (filepathBase : String → String) (pc : Nat) (entry : ModuleEntry32) :
    StackItem :=
  let modName := "UNKNOWN"
  let offsy := 0
  let inside : Bool :=
    pc ≥ entry.ModBaseAddr ∧ pc < (entry.ModBaseAddr + entry.ModBaseSize) % 2 ^ 64
  let offsy := if inside then sub64 pc entry.ModBaseAddr else offsy
  let modName := if inside then filepathBase entry.ExePath else modName
  { RetAddress := pc
    SymbolAddress := 0
    ModName := modName
    FuncName := ""
    Offset := offsy }

/-- What one pass through the body of the `for` loop does: the loop goes on with a
new local state, or the function ends. -/
inductive Step where
  | next (s : Frame)
  | stop (f : Final)

/-- The body of the `for` loop, lines 113 to 192, in iteration `k`. -/
def iteration (o : OS) (k : Nat) (s : Frame) : Step :=
  let e := o.EnterCriticalSection k
  let s := s.defer .LeaveCriticalSection
  if hardStatus e then
    .stop (s.doReturn (some ("EnterCriticalSection: " ++ errorText e)))
  else
  let walk := o.StackWalk64 k
  if walk.pc = 0 ∨ walk.success = 0 then
    .stop (s.doReturn none)
  else
  let sym := o.SymFromAddr k
  if symHardStatus sym.status then
    .stop (s.doReturn (some
      ("pSymFromAddr: (note may need to set to UNKNOWN here instead of return)"
        ++ errorText sym.status)))
  else
  let e := o.LeaveCriticalSection k
  if hardStatus e then
    .stop (s.doReturn (some ("LeaveCriticalSection: " ++ errorText e)))
  else
  if sym.success = 1 then
    let m := o.GetModule k
    let s := s.defer (.CloseHandle m.hModule)
    let tmp := resolvedItem walk.pc sym m
    .next { s with ret := s.ret ++ [tmp] }
  else
    let snap := o.Snapshot k
    let s := s.opens snap.snapshot
    let s := s.defer (.CloseHandle snap.snapshot.handle)
    match snap.snapshot.err with
    | some err => .stop (s.doFatal err)
    | none =>
    match snap.firstErr with
    | some err => .stop (s.doFatal err)
    | none =>
    let tmp := unresolvedItem o.filepathBase walk.pc snap.first
    .next { s with ret := s.ret ++ [tmp] }

/-- The `for` loop of lines 112 to 194 from iteration `k` on, and the `return ret,
nil` that follows a `break` (part of `iteration`).  At most `fuel` iterations are
run; `none` when that is not enough. -/
def walkLoop (o : OS) : Nat → Nat → Frame → Option Final
  | 0, _, _ => none
  | fuel + 1, k, s =>
    match iteration o k s with
    | .stop f => some f
    | .next s' => walkLoop o fuel (k + 1) s'

/-- Lines 63 to 110: everything `GetTrace` does before its loop.  The local state
at the loop's start, or the end of the call when a step fails. -/
def setup (o : OS) (pid tid : Int) (w : World) : Except Final Frame :=
  let s : Frame := ⟨[], [], w⟩
  let p := o.OpenProcess (toUint32 pid)
  let s := s.opens p
  let s := s.defer (.CloseHandle p.handle)
  match p.err with
  | some err => .error (s.doReturn (some ("OpenProcess: " ++ err)))
  | none =>
  let t := o.OpenThread (toUint32 tid)
  let s := s.opens t
  let s := s.defer (.CloseHandle t.handle)
  match t.err with
  | some err => .error (s.doReturn (some ("OpenThread: " ++ err)))
  | none =>
  let susp := o.SuspendThread
  let s := s.suspends susp
  let s := s.defer (.ResumeThread t.handle)
  if hardStatus susp.status then
    .error (s.doReturn (some ("SuspendThread: " ++ errorText susp.status)))
  else
  let context := o.GetThreadContext
  if hardStatus context.status then
    .error (s.doReturn (some ("GetThreadContext: " ++ errorText context.status)))
  else
  if context.Rip = 0 then
    .error (s.doReturn (some "GetThreadContext: invalid context, RIP is 0x0"))
  else
  if hardStatus o.SymInitialize then
    .error (s.doReturn (some ("SymInitialize: " ++ errorText o.SymInitialize)))
  else
  let s := s.defer (.SymCleanup p.handle)
  if hardStatus o.InitializeCriticalSection then
    .error (s.doReturn
      (some ("InitializeCriticalSection: " ++ errorText o.InitializeCriticalSection)))
  else
  .ok s

/-- The function `GetTrace` of `main.go`, run in the world `w` with the operating
system answering as `o`, its loop bounded by `fuel` iterations. -/
def GetTrace (o : OS) (fuel : Nat) (pid tid : Int) (w : World) : Option Final :=
  match setup o pid tid w with
  | .error f => some f
  | .ok s => walkLoop o fuel 0 s


/-! ## Notions used to state the properties -/

/-- The `StackItem` iteration `k` appends to `ret` when it reaches the end of the
loop body: lines 156 to 163 or 186 to 191. -/
def emittedItem (o : OS) (k : Nat) : StackItem :=
  if (o.SymFromAddr k).success = 1 then
    resolvedItem (o.StackWalk64 k).pc (o.SymFromAddr k) (o.GetModule k)
  else
    unresolvedItem o.filepathBase (o.StackWalk64 k).pc (o.Snapshot k).first

/-- Iteration `k` meets no failure: the lock calls and `SymFromAddr` report no hard
status, `StackWalk64` succeeds with a program counter other than 0, and the
snapshot calls, when they are made, succeed. -/
def Completes (o : OS) (k : Nat) : Prop :=
  hardStatus (o.EnterCriticalSection k) = false ∧
  ((o.StackWalk64 k).pc ≠ 0 ∧ (o.StackWalk64 k).success ≠ 0) ∧
  symHardStatus (o.SymFromAddr k).status = false ∧
  hardStatus (o.LeaveCriticalSection k) = false ∧
  ((o.SymFromAddr k).success ≠ 1 →
    (o.Snapshot k).snapshot.err = none ∧ (o.Snapshot k).firstErr = none)

/-- The items appended by `n` iterations from iteration `k` on. -/
def emittedFrom (o : OS) (k n : Nat) : List StackItem :=
  (List.range n).map (fun i => emittedItem o (k + i))

/-! ## Concrete runs -/

/-- A world in which the target thread runs and `GetTrace` has opened nothing yet. -/
def freshWorld : World := ⟨0, [], []⟩

/-- An operating system in which every call succeeds, the thread's stack ends at
the first `StackWalk64` call, no symbol resolves and the first module of the
snapshot is `C:\app\target.exe` at `0x400000`, 64 KiB long; the snapshot of
iteration `k` has the handle `0x70 + 4 * k`. -/
def quietOS : OS where
  OpenProcess := fun _ => ⟨0x64, none⟩
  OpenThread := fun _ => ⟨0x68, none⟩
  SuspendThread := ⟨true, some benignStatus⟩
  GetThreadContext := ⟨some benignStatus, 0x401000, 0x7ffe10, 0x7ffe00⟩
  SymInitialize := some benignStatus
  InitializeCriticalSection := some benignStatus
  EnterCriticalSection := fun _ => some benignStatus
  StackWalk64 := fun _ => ⟨0, 0⟩
  SymFromAddr := fun _ => ⟨0, some invalidAddressStatus, 0xcccccccccccccccc, 0xcccccccc,
    fun _ => 0xcc⟩
  LeaveCriticalSection := fun _ => some benignStatus
  GetModule := fun _ => ⟨none, 0x7ff800000000, none, 0x6b, "kernel32.dll"⟩
  Snapshot := fun k =>
    ⟨⟨0x70 + 4 * k, none⟩, none, ⟨0x400000, 0x10000, "C:\\app\\target.exe"⟩, []⟩
  filepathBase := fun path => ⟨(path.data.reverse.takeWhile (· ≠ '\\')).reverse⟩

/-- As `quietOS`, with a stack of `pcs.length` frames whose program counters are
`pcs`: `StackWalk64` succeeds that many times, then fails. -/
def walkingOS (pcs : List Nat) : OS :=
  { quietOS with
    StackWalk64 := fun k => if k < pcs.length then ⟨1, pcs.getD k 0⟩ else ⟨0, 0⟩ }

/-- The result of `SymFromAddr` for a symbol at `address` named `name`. -/
def resolvedSym (address : Nat) (name : List Nat) : SymResult :=
  ⟨1, some benignStatus, address, name.length, fun i => name.getD i 0⟩

/-- As `walkingOS [0x7ff800001234]`, a stack of one frame, whose symbol resolves to
`foo` at `0x7ff800001000`. -/
def resolvingOS : OS :=
  { walkingOS [0x7ff800001234] with
    SymFromAddr := fun _ => resolvedSym 0x7ff800001000 [0x66, 0x6f, 0x6f] }

/-- As `resolvingOS`, with a resolver that reports success, the address 0 and the
name `foo`. -/
def nullSymbolOS : OS :=
  { walkingOS [0x7ff800001234] with
    SymFromAddr := fun _ => resolvedSym 0 [0x66, 0x6f, 0x6f] }

/-- A stack of two frames: the first resolves to `foo` at `0x7ff800001000`, the
second, inside the main module, resolves to no symbol. -/
def mixedOS : OS :=
  { walkingOS [0x7ff800001234, 0x401234] with
    SymFromAddr := fun k =>
      if k = 0 then resolvedSym 0x7ff800001000 [0x66, 0x6f, 0x6f]
      else quietOS.SymFromAddr k }

/-- A stack of one frame at `0x500000` for which `SymFromAddr` returns 0 with the
status of `ERROR_MOD_NOT_FOUND`. -/
def moduleNotFoundOS : OS :=
  { walkingOS [0x500000] with
    SymFromAddr := fun _ => ⟨0, some "The specified module could not be found.",
      0xcccccccccccccccc, 0xcccccccc, fun _ => 0xcc⟩ }

/-- A stack of two frames; `LeaveCriticalSection` reports `Access is denied.` in
the second iteration. -/
def hardLeaveOS : OS :=
  { walkingOS [0x401234, 0x500000] with
    LeaveCriticalSection := fun k =>
      if k = 1 then some "Access is denied." else some benignStatus }

/-- A stack of two frames; `SymFromAddr` returns 0 with the status of
`ERROR_MOD_NOT_FOUND` in the second iteration. -/
def hardSymOS : OS :=
  { walkingOS [0x401234, 0x500000] with
    SymFromAddr := fun k =>
      if k = 1 then ⟨0, some "The specified module could not be found.",
        0xcccccccccccccccc, 0xcccccccc, fun _ => 0xcc⟩
      else quietOS.SymFromAddr k }

/-- An operating system that refuses to open the process. -/
def deniedOS : OS :=
  { quietOS with OpenProcess := fun _ => ⟨0, some "Access is denied."⟩ }

/-- A stack of one frame at `0x500000` that resolves to no symbol, and a
`CreateToolhelp32Snapshot` that fails. -/
def snapshotFailsOS : OS :=
  { walkingOS [0x500000] with
    Snapshot := fun _ =>
      ⟨⟨0xffffffffffffffff, some "Access is denied."⟩, none, ⟨0, 0, ""⟩, []⟩ }

/-- An operating system whose `SuspendThread` fails: the thread is not suspended
and the status is that of `ERROR_SIGNAL_REFUSED`, which a thread at the maximum
suspend count gives. -/
def suspendFailsOS : OS :=
  { quietOS with
    SuspendThread := ⟨false, some "The recipient process has refused the signal."⟩ }

/-! ## The loop body -/


theorem iteration_next_of_completes (o : OS) (k : Nat) (s : Frame) (h : Completes o k) :
    ∃ s', iteration o k s = .next s' ∧ s'.ret = s.ret ++ [emittedItem o k] := by
  obtain ⟨h1, ⟨h2, h3⟩, h4, h5, h6⟩ := h
  by_cases hs : (o.SymFromAddr k).success = 1
  · exact ⟨_, by simp [iteration, h1, h2, h3, h4, h5, hs]; rfl,
      by simp [emittedItem, hs, Frame.defer]⟩
  · obtain ⟨h7, h8⟩ := h6 hs
    refine ⟨_, by simp [iteration, h1, h2, h3, h4, h5, hs, h7, h8]; rfl, ?_⟩
    simp [emittedItem, hs, Frame.defer, Frame.opens, h7]

theorem completes_of_iteration_next (o : OS) (k : Nat) (s s' : Frame)
    (h : iteration o k s = .next s') :
    Completes o k ∧ s'.ret = s.ret ++ [emittedItem o k] := by
  unfold iteration at h
  simp only at h
  split at h
  · cases h
  split at h
  · cases h
  split at h
  · cases h
  split at h
  · cases h
  rename_i h1 h2 h3 h4
  split at h
  · rename_i hs
    cases h
    refine ⟨⟨by simpa using h1, by simpa [not_or] using h2, by simpa using h3,
      by simpa using h4, fun hn => absurd hs hn⟩, ?_⟩
    simp [emittedItem, hs, Frame.defer]
  · rename_i hs
    split at h
    · cases h
    split at h
    · cases h
    rename_i h7 _ h8
    cases h
    refine ⟨⟨by simpa using h1, by simpa [not_or] using h2, by simpa using h3,
      by simpa using h4, fun _ => ⟨h7, h8⟩⟩, ?_⟩
    simp [emittedItem, hs, Frame.defer, Frame.opens, h7]

theorem iteration_stop_ret (o : OS) (k : Nat) (s : Frame) (f : Final)
    (ret : List StackItem) (err : Option String)
    (h : iteration o k s = .stop f) (hf : f.exit = .returned ret err) : ret = s.ret := by
  unfold iteration at h
  simp only at h
  repeat' split at h
  all_goals cases h
  all_goals simp [Frame.doReturn, Frame.doFatal, Frame.defer] at hf
  all_goals exact hf.1.symm

/-! ## The loop -/

theorem emittedFrom_succ (o : OS) (k n : Nat) :
    emittedFrom o k (n + 1) = emittedItem o k :: emittedFrom o (k + 1) n := by
  simp [emittedFrom, List.range_succ_eq_map, List.map_map, Function.comp_def,
    Nat.add_assoc, Nat.add_comm 1]

theorem walkLoop_run (o : OS) (fuel : Nat) :
    ∀ (n k : Nat) (s : Frame), (∀ i, i < n → Completes o (k + i)) →
      ∃ s', walkLoop o (n + fuel) k s = walkLoop o fuel (k + n) s' ∧
        s'.ret = s.ret ++ emittedFrom o k n := by
  intro n
  induction n with
  | zero => intro k s _; exact ⟨s, by simp, by simp [emittedFrom]⟩
  | succ n ih =>
    intro k s h
    obtain ⟨s1, h1, hr1⟩ := iteration_next_of_completes o k s (by simpa using h 0 (by omega))
    obtain ⟨s2, h2, hr2⟩ := ih (k + 1) s1 (fun i hi => by
      have := h (i + 1) (by omega)
      rwa [show k + 1 + i = k + (i + 1) by omega])
    refine ⟨s2, ?_, ?_⟩
    · rw [show n + 1 + fuel = (n + fuel) + 1 by omega, walkLoop, h1]
      simp only
      rw [h2, show k + 1 + n = k + (n + 1) by omega]
    · rw [hr2, hr1, emittedFrom_succ]; simp

theorem walkLoop_returned (o : OS) :
    ∀ (fuel k : Nat) (s : Frame) (f : Final) (ret : List StackItem) (err : Option String),
      walkLoop o fuel k s = some f → f.exit = .returned ret err →
      ∃ n, ret = s.ret ++ emittedFrom o k n ∧ ∀ i, i < n → Completes o (k + i) := by
  intro fuel
  induction fuel with
  | zero => intro k s f ret err h; simp [walkLoop] at h
  | succ fuel ih =>
    intro k s f ret err h hf
    rw [walkLoop] at h
    split at h
    · rename_i f' hstop
      cases h
      exact ⟨0, by simp [emittedFrom, iteration_stop_ret o k s f ret err hstop hf],
        fun i hi => absurd hi (by omega)⟩
    · rename_i s' hnext
      obtain ⟨hc, hr⟩ := completes_of_iteration_next o k s s' hnext
      obtain ⟨n, hn, hall⟩ := ih (k + 1) s' f ret err h hf
      refine ⟨n + 1, ?_, ?_⟩
      · rw [hn, hr, emittedFrom_succ]; simp
      · intro i hi
        cases i with
        | zero => simpa using hc
        | succ j =>
          have := hall j (by omega)
          rwa [show k + 1 + j = k + (j + 1) by omega] at this

theorem walkLoop_fuel_mono (o : OS) :
    ∀ (fuel k : Nat) (s : Frame) (f : Final), walkLoop o fuel k s = some f →
      ∀ m, walkLoop o (fuel + m) k s = some f := by
  intro fuel
  induction fuel with
  | zero => intro k s f h; simp [walkLoop] at h
  | succ fuel ih =>
    intro k s f h m
    rw [show fuel + 1 + m = (fuel + m) + 1 by omega, walkLoop]
    rw [walkLoop] at h
    split
    · rename_i f' hstop
      rw [hstop] at h
      exact h
    · rename_i s' hnext
      rw [hnext] at h
      exact ih (k + 1) s' f h m

/-! ## Before the loop -/

@[simp] theorem Frame.defer_ret (s : Frame) (d : Deferred) : (s.defer d).ret = s.ret := rfl

@[simp] theorem Frame.opens_ret (s : Frame) (r : HandleResult) : (s.opens r).ret = s.ret := by
  unfold Frame.opens; split <;> rfl

@[simp] theorem Frame.suspends_ret (s : Frame) (r : SuspendResult) :
    (s.suspends r).ret = s.ret := by
  unfold Frame.suspends; split <;> rfl

@[simp] theorem Frame.doReturn_exit (s : Frame) (err : Option String) :
    (s.doReturn err).exit = .returned s.ret err := rfl

theorem setup_ok_ret (o : OS) (pid tid : Int) (w : World) (s : Frame)
    (h : setup o pid tid w = .ok s) : s.ret = [] := by
  unfold setup at h
  simp only at h
  repeat' split at h
  all_goals cases h
  all_goals simp

theorem setup_error_exit (o : OS) (pid tid : Int) (w : World) (f : Final)
    (h : setup o pid tid w = .error f) :
    (∃ e, (o.OpenProcess (toUint32 pid)).err = some e ∧
      f.exit = .returned [] (some ("OpenProcess: " ++ e))) ∨
    (∃ e, (o.OpenThread (toUint32 tid)).err = some e ∧
      f.exit = .returned [] (some ("OpenThread: " ++ e))) ∨
    (hardStatus o.SuspendThread.status = true ∧
      f.exit = .returned [] (some ("SuspendThread: " ++ errorText o.SuspendThread.status))) ∨
    (hardStatus o.GetThreadContext.status = true ∧
      f.exit = .returned []
        (some ("GetThreadContext: " ++ errorText o.GetThreadContext.status))) ∨
    (o.GetThreadContext.Rip = 0 ∧
      f.exit = .returned [] (some "GetThreadContext: invalid context, RIP is 0x0")) ∨
    (hardStatus o.SymInitialize = true ∧
      f.exit = .returned [] (some ("SymInitialize: " ++ errorText o.SymInitialize))) ∨
    (hardStatus o.InitializeCriticalSection = true ∧
      f.exit = .returned []
        (some ("InitializeCriticalSection: " ++ errorText o.InitializeCriticalSection))) := by
  unfold setup at h
  simp only at h
  split at h
  · cases h
    rename_i hc
    refine Or.inl ?_
    simp only [Frame.doReturn_exit, Frame.defer_ret, Frame.opens_ret, Frame.suspends_ret]
    exact ⟨_, hc, rfl⟩
  split at h
  · cases h
    rename_i hc
    refine Or.inr <| Or.inl ?_
    simp only [Frame.doReturn_exit, Frame.defer_ret, Frame.opens_ret, Frame.suspends_ret]
    exact ⟨_, hc, rfl⟩
  split at h
  · cases h
    rename_i hc
    refine Or.inr <| Or.inr <| Or.inl ?_
    simp only [Frame.doReturn_exit, Frame.defer_ret, Frame.opens_ret, Frame.suspends_ret]
    exact ⟨hc, trivial⟩
  split at h
  · cases h
    rename_i hc
    refine Or.inr <| Or.inr <| Or.inr <| Or.inl ?_
    simp only [Frame.doReturn_exit, Frame.defer_ret, Frame.opens_ret, Frame.suspends_ret]
    exact ⟨hc, trivial⟩
  split at h
  · cases h
    rename_i hc
    refine Or.inr <| Or.inr <| Or.inr <| Or.inr <| Or.inl ?_
    simp only [Frame.doReturn_exit, Frame.defer_ret, Frame.opens_ret, Frame.suspends_ret]
    exact ⟨hc, trivial⟩
  split at h
  · cases h
    rename_i hc
    refine Or.inr <| Or.inr <| Or.inr <| Or.inr <| Or.inr <| Or.inl ?_
    simp only [Frame.doReturn_exit, Frame.defer_ret, Frame.opens_ret, Frame.suspends_ret]
    exact ⟨hc, trivial⟩
  split at h
  · cases h
    rename_i hc
    refine Or.inr <| Or.inr <| Or.inr <| Or.inr <| Or.inr <| Or.inr <| ?_
    simp only [Frame.doReturn_exit, Frame.defer_ret, Frame.opens_ret, Frame.suspends_ret]
    exact ⟨hc, trivial⟩
  cases h

/-! ## Whole runs -/

theorem GetTrace_returned (o : OS) (fuel : Nat) (pid tid : Int) (w : World) (f : Final)
    (ret : List StackItem) (err : Option String)
    (h : GetTrace o fuel pid tid w = some f) (hf : f.exit = .returned ret err) :
    ∃ n, ret = emittedFrom o 0 n ∧ ∀ i, i < n → Completes o i := by
  unfold GetTrace at h
  split at h
  · rename_i f' hs
    cases h
    have hx : ∃ e, f.exit = .returned [] e := by
      rcases setup_error_exit o pid tid w f hs with
        ⟨_, _, h⟩ | ⟨_, _, h⟩ | ⟨_, h⟩ | ⟨_, h⟩ | ⟨_, h⟩ | ⟨_, h⟩ | ⟨_, h⟩ <;> exact ⟨_, h⟩
    obtain ⟨e, hx⟩ := hx
    rw [hx] at hf
    cases hf
    exact ⟨0, by simp [emittedFrom], fun i hi => absurd hi (by omega)⟩
  · rename_i s hs
    obtain ⟨n, hn, hall⟩ := walkLoop_returned o fuel 0 s f ret err h hf
    rw [setup_ok_ret o pid tid w s hs] at hn
    exact ⟨n, by simpa using hn, fun i hi => by simpa using hall i hi⟩

/-- A result `GetTrace` reaches within `fuel` iterations is its result within any
larger number of iterations. -/
theorem GetTrace_fuel_mono (o : OS) (fuel fuel' : Nat) (pid tid : Int) (w : World)
    (f : Final) (h : GetTrace o fuel pid tid w = some f) (hle : fuel ≤ fuel') :
    GetTrace o fuel' pid tid w = some f := by
  unfold GetTrace at h ⊢
  split
  · rename_i f' hs
    rw [hs] at h
    exact h
  · rename_i s hs
    rw [hs] at h
    obtain ⟨m, rfl⟩ : ∃ m, fuel' = fuel + m := ⟨fuel' - fuel, by omega⟩
    exact walkLoop_fuel_mono o fuel 0 s f h m

theorem mem_emittedFrom (o : OS) (k n : Nat) (it : StackItem) (h : it ∈ emittedFrom o k n) :
    ∃ i, it = emittedItem o i := by
  simp only [emittedFrom, List.mem_map, List.mem_range] at h
  obtain ⟨i, _, hi⟩ := h
  exact ⟨k + i, hi.symm⟩

theorem emittedItem_RetAddress (o : OS) (k : Nat) :
    (emittedItem o k).RetAddress = (o.StackWalk64 k).pc := by
  unfold emittedItem; split <;> rfl

theorem sub64_int (a b : Nat) :
    ((sub64 a b : Nat) : Int) = ((a : Int) - (b : Int)) % 2 ^ 64 := by
  unfold sub64; omega

theorem sub64_of_le (a b : Nat) (hb : b ≤ a) (ha : a < 2 ^ 64) : sub64 a b = a - b := by
  unfold sub64; omega

theorem iteration_boundary (o : OS) (k : Nat) (s : Frame)
    (h : (o.StackWalk64 k).success = 0 ∨ (o.StackWalk64 k).pc = 0) :
    ∃ f err, iteration o k s = .stop f ∧ f.exit = .returned s.ret err ∧
      (hardStatus (o.EnterCriticalSection k) = false → err = none) := by
  by_cases he : hardStatus (o.EnterCriticalSection k) = true
  · exact ⟨(s.defer .LeaveCriticalSection).doReturn
        (some ("EnterCriticalSection: " ++ errorText (o.EnterCriticalSection k))),
      some ("EnterCriticalSection: " ++ errorText (o.EnterCriticalSection k)),
      by simp [iteration, he], by simp, by simp [he]⟩
  · exact ⟨(s.defer .LeaveCriticalSection).doReturn none, none,
      by simp [iteration, he, h.symm], by simp, by simp⟩

theorem iteration_hard_stop (o : OS) (k : Nat) (s : Frame) :
    (hardStatus (o.EnterCriticalSection k) = true →
      iteration o k s = .stop ((s.defer .LeaveCriticalSection).doReturn
        (some ("EnterCriticalSection: " ++ errorText (o.EnterCriticalSection k))))) ∧
    (hardStatus (o.EnterCriticalSection k) = false →
      (o.StackWalk64 k).pc ≠ 0 → (o.StackWalk64 k).success ≠ 0 →
      symHardStatus (o.SymFromAddr k).status = true →
      iteration o k s = .stop ((s.defer .LeaveCriticalSection).doReturn
        (some ("pSymFromAddr: (note may need to set to UNKNOWN here instead of return)"
          ++ errorText (o.SymFromAddr k).status)))) ∧
    (hardStatus (o.EnterCriticalSection k) = false →
      (o.StackWalk64 k).pc ≠ 0 → (o.StackWalk64 k).success ≠ 0 →
      symHardStatus (o.SymFromAddr k).status = false →
      hardStatus (o.LeaveCriticalSection k) = true →
      iteration o k s = .stop ((s.defer .LeaveCriticalSection).doReturn
        (some ("LeaveCriticalSection: " ++ errorText (o.LeaveCriticalSection k))))) := by
  refine ⟨fun h1 => ?_, fun h1 h2 h3 h4 => ?_, fun h1 h2 h3 h4 h5 => ?_⟩
  · simp [iteration, h1]
  · simp [iteration, h1, h2, h3, h4]
  · simp [iteration, h1, h2, h3, h4, h5]

theorem GetTrace_stop_after (o : OS) (fuel : Nat) (pid tid : Int) (w : World) (s0 : Frame)
    (k : Nat) (err : Option String)
    (hsetup : setup o pid tid w = .ok s0)
    (hprev : ∀ i, i < k → Completes o i) (hfuel : k < fuel)
    (hstop : ∀ s, iteration o k s = .stop ((s.defer .LeaveCriticalSection).doReturn err)) :
    ∃ w', GetTrace o fuel pid tid w
      = some ⟨.returned ((List.range k).map (emittedItem o)) err, w'⟩ := by
  obtain ⟨m, hm⟩ : ∃ m, fuel = k + (m + 1) := ⟨fuel - k - 1, by omega⟩
  obtain ⟨s1, hrun, hret⟩ := walkLoop_run o (m + 1) k 0 s0
    (fun i hi => by simpa using hprev i hi)
  refine ⟨((s1.defer .LeaveCriticalSection).doReturn err).world, ?_⟩
  unfold GetTrace
  rw [hsetup]
  simp only
  rw [hm, hrun, walkLoop, Nat.zero_add, hstop s1]
  simp only [Frame.doReturn, Frame.defer_ret, hret, setup_ok_ret o pid tid w s0 hsetup,
    emittedFrom, Nat.zero_add, List.nil_append]

/-! ## C3: the frames of a walk that ends at the stack boundary -/

/-- C3. When the steps before the loop succeed and no call of the first `n`
iterations fails, `StackWalk64` succeeding there with the program counters `pcs`
(none of them 0, `n` their number), and the call of iteration `n` fails or leaves
the program counter 0, then `GetTrace`, given room for `n + 1` iterations, returns
a nil error and exactly `n` items whose `RetAddress` fields are `pcs`, in order. -/
theorem GetTrace_returns_walked_frames (o : OS) (fuel : Nat) (pid tid : Int) (w : World)
    (s0 : Frame) (pcs : List Nat)
    (hsetup : setup o pid tid w = .ok s0)
    (hwalk : ∀ i (h : i < pcs.length),
      (o.StackWalk64 i).success ≠ 0 ∧ (o.StackWalk64 i).pc = pcs[i] ∧ pcs[i] ≠ 0)
    (hlock : ∀ i, i < pcs.length →
      hardStatus (o.EnterCriticalSection i) = false ∧
        hardStatus (o.LeaveCriticalSection i) = false)
    (hsym : ∀ i, i < pcs.length → symHardStatus (o.SymFromAddr i).status = false)
    (hsnap : ∀ i, i < pcs.length → (o.SymFromAddr i).success ≠ 1 →
      (o.Snapshot i).snapshot.err = none ∧ (o.Snapshot i).firstErr = none)
    (hlast : hardStatus (o.EnterCriticalSection pcs.length) = false)
    (hend : (o.StackWalk64 pcs.length).success = 0 ∨ (o.StackWalk64 pcs.length).pc = 0)
    (hfuel : pcs.length < fuel) :
    ∃ ret w', GetTrace o fuel pid tid w = some ⟨.returned ret none, w'⟩ ∧
      ret.length = pcs.length ∧ ret.map (fun it => it.RetAddress) = pcs := by
  have hc : ∀ i, i < pcs.length → Completes o (0 + i) := by
    intro i hi
    obtain ⟨h1, h2, h3⟩ := hwalk i hi
    rw [Nat.zero_add]
    exact ⟨(hlock i hi).1, ⟨by rw [h2]; exact h3, h1⟩, hsym i hi, (hlock i hi).2, hsnap i hi⟩
  obtain ⟨m, hm⟩ : ∃ m, fuel = pcs.length + (m + 1) := ⟨fuel - pcs.length - 1, by omega⟩
  obtain ⟨s1, hrun, hret⟩ := walkLoop_run o (m + 1) pcs.length 0 s0 hc
  obtain ⟨f, err, hstop, hexit, herr⟩ := iteration_boundary o (0 + pcs.length) s1
    (by simpa using hend)
  have herr' : err = none := herr (by simpa using hlast)
  subst herr'
  have hmap : (emittedFrom o 0 pcs.length).map (fun it => it.RetAddress) = pcs := by
    apply List.ext_getElem
    · simp [emittedFrom]
    · intro i h1 h2
      simp [emittedFrom, emittedItem_RetAddress, (hwalk i h2).2.1]
  refine ⟨s1.ret, f.world, ?_, ?_, ?_⟩
  · unfold GetTrace
    rw [hsetup]
    simp only
    rw [hm, hrun, walkLoop, hstop]
    simp only
    rw [← hexit]
  · rw [hret, setup_ok_ret o pid tid w s0 hsetup]
    simp [emittedFrom]
  · rw [hret, setup_ok_ret o pid tid w s0 hsetup]
    simpa using hmap

/-- C3 at a stack of two frames, the first inside the main module and the second
outside every module: two items come back, with the two program counters. -/
theorem GetTrace_returns_walked_frames_witness :
    ∃ ret w', GetTrace (walkingOS [0x401234, 0x500000]) 3 4242 77 freshWorld
        = some ⟨.returned ret none, w'⟩ ∧
      ret.length = 2 ∧ ret.map (fun it => it.RetAddress) = [0x401234, 0x500000] :=
  GetTrace_returns_walked_frames (walkingOS [0x401234, 0x500000]) 3 4242 77 freshWorld
    ⟨[], [.SymCleanup 0x64, .ResumeThread 0x68, .CloseHandle 0x68, .CloseHandle 0x64],
      ⟨1, [0x64, 0x68], []⟩⟩
    [0x401234, 0x500000] rfl (by decide) (by decide) (by decide) (by decide) (by decide)
    (by decide) (by decide)

/-! ## C9: the stack boundary at the first `StackWalk64` call -/

/-- C9, amended. When the steps before the loop succeed and the first `StackWalk64`
call fails or leaves the program counter 0, `GetTrace` returns no frame at all; the
error it returns is nil when `EnterCriticalSection` reported no hard status. -/
theorem GetTrace_boundary_no_frame (o : OS) (fuel : Nat) (pid tid : Int) (w : World)
    (s0 : Frame)
    (hsetup : setup o pid tid w = .ok s0)
    (hend : (o.StackWalk64 0).success = 0 ∨ (o.StackWalk64 0).pc = 0)
    (hfuel : 0 < fuel) :
    ∃ err w', GetTrace o fuel pid tid w = some ⟨.returned [] err, w'⟩ ∧
      (hardStatus (o.EnterCriticalSection 0) = false → err = none) := by
  obtain ⟨m, rfl⟩ : ∃ m, fuel = m + 1 := ⟨fuel - 1, by omega⟩
  obtain ⟨f, err, hstop, hexit, herr⟩ := iteration_boundary o 0 s0 hend
  refine ⟨err, f.world, ?_, herr⟩
  unfold GetTrace
  rw [hsetup]
  simp only
  rw [walkLoop, hstop]
  simp only
  rw [← setup_ok_ret o pid tid w s0 hsetup, ← hexit]

/-- C9, amended, at `quietOS`, whose first `StackWalk64` call fails. -/
theorem GetTrace_boundary_no_frame_witness :
    ∃ err w', GetTrace quietOS 1 4242 77 freshWorld = some ⟨.returned [] err, w'⟩ ∧
      (hardStatus (quietOS.EnterCriticalSection 0) = false → err = none) :=
  GetTrace_boundary_no_frame quietOS 1 4242 77 freshWorld
    ⟨[], [.SymCleanup 0x64, .ResumeThread 0x68, .CloseHandle 0x68, .CloseHandle 0x64],
      ⟨1, [0x64, 0x68], []⟩⟩
    rfl (by decide) (by decide)

/-- C9 fails as stated: with both handles opened, the thread suspended, a context
whose instruction pointer is not 0, the symbol engine initialised and a first
`StackWalk64` call that fails, `GetTrace` returns a list that has not one frame but
none. -/
theorem GetTrace_boundary_not_one_frame :
    (quietOS.OpenProcess (toUint32 4242)).err = none ∧
    (quietOS.OpenThread (toUint32 77)).err = none ∧
    quietOS.SuspendThread.suspended = true ∧
    hardStatus quietOS.GetThreadContext.status = false ∧
    quietOS.GetThreadContext.Rip ≠ 0 ∧
    hardStatus quietOS.SymInitialize = false ∧
    hardStatus quietOS.InitializeCriticalSection = false ∧
    (quietOS.StackWalk64 0).success = 0 ∧
    ∃ ret err w', GetTrace quietOS 1 4242 77 freshWorld = some ⟨.returned ret err, w'⟩ ∧
      ret.length ≠ 1 :=
  ⟨rfl, rfl, rfl, by decide, by decide, by decide, by decide, rfl,
    [], none, ⟨0, [0x64, 0x68], [0x68, 0x64]⟩, by decide, by decide⟩

/-! ## C4: the offset of a frame with a symbol -/

/-- C4. Every item of a list `GetTrace` returns, with or without an error, whose
`SymbolAddress` is not 0 has `Offset` equal to `RetAddress - SymbolAddress` modulo
`2 ^ 64`. -/
theorem GetTrace_offset_from_symbol (o : OS) (fuel : Nat) (pid tid : Int) (w w' : World)
    (ret : List StackItem) (err : Option String)
    (h : GetTrace o fuel pid tid w = some ⟨.returned ret err, w'⟩) :
    ∀ it ∈ ret, it.SymbolAddress ≠ 0 →
      (it.Offset : Int) = ((it.RetAddress : Int) - (it.SymbolAddress : Int)) % 2 ^ 64 := by
  obtain ⟨n, hn, _⟩ := GetTrace_returned o fuel pid tid w _ ret err h rfl
  intro it hit hne
  rw [hn] at hit
  obtain ⟨i, rfl⟩ := mem_emittedFrom o 0 n it hit
  unfold emittedItem at hne ⊢
  split at hne
  · rename_i hs
    simp only [hs, if_true, resolvedItem]
    exact sub64_int _ _
  · exact absurd rfl hne

/-- C4 at a stack of one frame at `0x7ff800001234` whose symbol is at
`0x7ff800001000`. -/
theorem GetTrace_offset_from_symbol_witness :
    GetTrace resolvingOS 2 4242 77 freshWorld
        = some ⟨.returned [⟨0x7ff800001234, 0x7ff800001000, "kernel32.dll", "foo", 0x234⟩]
            none, ⟨0, [0x64, 0x68], [0x7ff800000000, 0x68, 0x64]⟩⟩ ∧
      ∀ it ∈ [(⟨0x7ff800001234, 0x7ff800001000, "kernel32.dll", "foo", 0x234⟩ : StackItem)],
        it.SymbolAddress ≠ 0 →
        (it.Offset : Int) = ((it.RetAddress : Int) - (it.SymbolAddress : Int)) % 2 ^ 64 :=
  ⟨by decide,
    GetTrace_offset_from_symbol resolvingOS 2 4242 77 freshWorld
      ⟨0, [0x64, 0x68], [0x7ff800000000, 0x68, 0x64]⟩
      [⟨0x7ff800001234, 0x7ff800001000, "kernel32.dll", "foo", 0x234⟩] none (by decide)⟩

/-! ## C5: the name of a frame without a symbol address -/

/-- C5, amended. When the resolver never reports success together with the address
0 and a name length other than 0, every item of a list `GetTrace` returns whose
`SymbolAddress` is 0 has an empty `FuncName`. -/
theorem GetTrace_no_symbol_no_name (o : OS) (fuel : Nat) (pid tid : Int) (w w' : World)
    (ret : List StackItem) (err : Option String)
    (hres : ∀ k, (o.SymFromAddr k).success = 1 → (o.SymFromAddr k).Address = 0 →
      (o.SymFromAddr k).NameLen = 0)
    (h : GetTrace o fuel pid tid w = some ⟨.returned ret err, w'⟩) :
    ∀ it ∈ ret, it.SymbolAddress = 0 → it.FuncName = "" := by
  obtain ⟨n, hn, _⟩ := GetTrace_returned o fuel pid tid w _ ret err h rfl
  intro it hit hz
  rw [hn] at hit
  obtain ⟨i, rfl⟩ := mem_emittedFrom o 0 n it hit
  unfold emittedItem at hz ⊢
  split at hz
  · rename_i hs
    simp only [hs, if_true, resolvedItem] at hz ⊢
    rw [hres i hs hz]
    rfl
  · rename_i hs
    simp only [hs, if_false, unresolvedItem]

/-- C5, amended, at a stack of two frames, the first with a symbol at an address
other than 0 and the second without a symbol. -/
theorem GetTrace_no_symbol_no_name_witness :
    GetTrace mixedOS 3 4242 77 freshWorld
        = some ⟨.returned [⟨0x7ff800001234, 0x7ff800001000, "kernel32.dll", "foo", 0x234⟩,
            ⟨0x401234, 0, "target.exe", "", 0x1234⟩] none,
          ⟨0, [0x64, 0x68, 0x74], [0x74, 0x7ff800000000, 0x68, 0x64]⟩⟩ ∧
      ∀ it ∈ [(⟨0x7ff800001234, 0x7ff800001000, "kernel32.dll", "foo", 0x234⟩ : StackItem),
          ⟨0x401234, 0, "target.exe", "", 0x1234⟩],
        it.SymbolAddress = 0 → it.FuncName = "" :=
  ⟨by decide,
    GetTrace_no_symbol_no_name mixedOS 3 4242 77 freshWorld
      ⟨0, [0x64, 0x68, 0x74], [0x74, 0x7ff800000000, 0x68, 0x64]⟩
      [⟨0x7ff800001234, 0x7ff800001000, "kernel32.dll", "foo", 0x234⟩,
        ⟨0x401234, 0, "target.exe", "", 0x1234⟩] none
      (fun k h hz => by
        cases k with
        | zero => exact absurd hz (by decide)
        | succ j => exact absurd (show (0 : Nat) = 1 from h) (by decide))
      (by decide)⟩

/-- C5 fails as stated: when the resolver reports success with the address 0 and
the name `foo`, `GetTrace` returns an item whose `SymbolAddress` is 0 and whose
`FuncName` is `foo`. -/
theorem GetTrace_null_symbol_named :
    (nullSymbolOS.SymFromAddr 0).success = 1 ∧
    (nullSymbolOS.SymFromAddr 0).Address = 0 ∧
    (nullSymbolOS.SymFromAddr 0).NameLen = 3 ∧
    GetTrace nullSymbolOS 2 4242 77 freshWorld
      = some ⟨.returned [⟨0x7ff800001234, 0, "kernel32.dll", "foo", 0x7ff800001234⟩] none,
          ⟨0, [0x64, 0x68], [0x7ff800000000, 0x68, 0x64]⟩⟩ ∧
    ¬ ∀ it ∈ [(⟨0x7ff800001234, 0, "kernel32.dll", "foo", 0x7ff800001234⟩ : StackItem)],
      it.SymbolAddress = 0 → it.FuncName = "" :=
  ⟨rfl, rfl, rfl, by decide, by decide⟩

/-! ## C6: the item of a frame without a symbol -/

/-- C6. In an iteration that reaches the symbol lookup, whose lookup does not
return 1 and whose snapshot calls succeed, with `(base, size, path)` the entry
`Module32First` filled in and `pc` the program counter: the iteration appends one
item to `ret`; when `base ≤ pc < base + size`, the sum being the `uint64` sum of
line 180, the item has an empty `FuncName`, `SymbolAddress` 0, `ModName` the base
name of `path` and `Offset` `pc - base`, otherwise an empty `FuncName`,
`SymbolAddress` 0, `ModName` `UNKNOWN` and `Offset` 0.  Whenever `base + size` is
below `2 ^ 64` that sum is the sum of the integers.  The entries after the first
have no part in it. -/
theorem iteration_unresolved_item (o : OS) (k : Nat) (s : Frame)
    (pc base size : Nat) (path : String)
    (henter : hardStatus (o.EnterCriticalSection k) = false)
    (hwalk : (o.StackWalk64 k).success ≠ 0)
    (hpc : (o.StackWalk64 k).pc = pc) (hpc0 : pc ≠ 0)
    (hsym : (o.SymFromAddr k).success ≠ 1)
    (hsoft : symHardStatus (o.SymFromAddr k).status = false)
    (hleave : hardStatus (o.LeaveCriticalSection k) = false)
    (hsnap : (o.Snapshot k).snapshot.err = none)
    (hfirst : (o.Snapshot k).firstErr = none)
    (hentry : (o.Snapshot k).first = ⟨base, size, path⟩) :
    ∃ s', iteration o k s = .next s' ∧
      s'.ret = s.ret ++
        [if base ≤ pc ∧ pc < (base + size) % 2 ^ 64 then
            ⟨pc, 0, o.filepathBase path, "", pc - base⟩
          else ⟨pc, 0, "UNKNOWN", "", 0⟩] ∧
      (base + size < 2 ^ 64 →
        s'.ret = s.ret ++
          [if base ≤ pc ∧ pc < base + size then
              ⟨pc, 0, o.filepathBase path, "", pc - base⟩
            else ⟨pc, 0, "UNKNOWN", "", 0⟩]) := by
  obtain ⟨s', hs', hret⟩ := iteration_next_of_completes o k s
    ⟨henter, ⟨by rw [hpc]; exact hpc0, hwalk⟩, hsoft, hleave, fun _ => ⟨hsnap, hfirst⟩⟩
  have hmain : s'.ret = s.ret ++
      [if base ≤ pc ∧ pc < (base + size) % 2 ^ 64 then
          ⟨pc, 0, o.filepathBase path, "", pc - base⟩
        else ⟨pc, 0, "UNKNOWN", "", 0⟩] := by
    rw [hret]
    simp only [emittedItem, hsym, if_false, unresolvedItem, hpc, hentry]
    by_cases hin : base ≤ pc ∧ pc < (base + size) % 2 ^ 64
    · have hlt : pc < 2 ^ 64 := Nat.lt_trans hin.2 (Nat.mod_lt _ (by decide))
      rw [if_pos hin, sub64_of_le pc base hin.1 hlt]
      simp only [ge_iff_le, hin, and_self, decide_True, if_true]
    · rw [if_neg hin]
      simp only [ge_iff_le, hin, decide_False, Bool.false_eq_true, if_false]
  refine ⟨s', hs', hmain, fun hsum => ?_⟩
  rw [hmain, Nat.mod_eq_of_lt hsum]

/-- C6 at the first frame of `walkingOS [0x401234, 0x500000]`, which lies in the
main module. -/
theorem iteration_unresolved_item_witness :
    ∃ s', iteration (walkingOS [0x401234, 0x500000]) 0 ⟨[], [], freshWorld⟩ = .next s' ∧
      s'.ret = [] ++
        [if 0x400000 ≤ 0x401234 ∧ 0x401234 < (0x400000 + 0x10000) % 2 ^ 64 then
            ⟨0x401234, 0, (walkingOS [0x401234, 0x500000]).filepathBase "C:\\app\\target.exe",
              "", 0x401234 - 0x400000⟩
          else ⟨0x401234, 0, "UNKNOWN", "", 0⟩] ∧
      (0x400000 + 0x10000 < 2 ^ 64 →
        s'.ret = [] ++
          [if 0x400000 ≤ 0x401234 ∧ 0x401234 < 0x400000 + 0x10000 then
              ⟨0x401234, 0,
                (walkingOS [0x401234, 0x500000]).filepathBase "C:\\app\\target.exe",
                "", 0x401234 - 0x400000⟩
            else ⟨0x401234, 0, "UNKNOWN", "", 0⟩]) :=
  iteration_unresolved_item (walkingOS [0x401234, 0x500000]) 0 ⟨[], [], freshWorld⟩
    0x401234 0x400000 0x10000 "C:\\app\\target.exe"
    (by decide) (by decide) rfl (by decide) (by decide) (by decide) (by decide)
    rfl rfl rfl

/-! ## C7: a symbol that does not resolve -/

/-- C7, amended. In an iteration that reaches the symbol lookup and whose lookup
does not return 1.  When the lookup comes with no status, the status `The operation
completed successfully.` or the status `Attempt to access invalid address.`,
`LeaveCriticalSection` reports no hard status and the snapshot calls succeed, the
loop goes on, having appended to `ret` one item for the frame, with an empty
`FuncName` and as `ModName` either `UNKNOWN` or the base name of the first module's
path.  With any other status text the iteration appends nothing and ends the call:
`GetTrace` returns the items of the earlier iterations and the error `pSymFromAddr:
(note may need to set to UNKNOWN here instead of return)` followed by the status
text. -/
theorem iteration_unresolved_soft (o : OS) (k : Nat) (s : Frame)
    (henter : hardStatus (o.EnterCriticalSection k) = false)
    (hwalk : (o.StackWalk64 k).success ≠ 0) (hpc : (o.StackWalk64 k).pc ≠ 0)
    (hsym : (o.SymFromAddr k).success ≠ 1) :
    (((o.SymFromAddr k).status = none ∨
        (o.SymFromAddr k).status = some "The operation completed successfully." ∨
        (o.SymFromAddr k).status = some "Attempt to access invalid address.") →
      hardStatus (o.LeaveCriticalSection k) = false →
      (o.Snapshot k).snapshot.err = none → (o.Snapshot k).firstErr = none →
      ∃ s' it, iteration o k s = .next s' ∧ s'.ret = s.ret ++ [it] ∧
        it.RetAddress = (o.StackWalk64 k).pc ∧ it.FuncName = "" ∧
        (it.ModName = "UNKNOWN" ∨
          it.ModName = o.filepathBase (o.Snapshot k).first.ExePath)) ∧
    (∀ t, (o.SymFromAddr k).status = some t →
      t ≠ "The operation completed successfully." →
      t ≠ "Attempt to access invalid address." →
      (∃ f, iteration o k s = .stop f ∧
        f.exit = .returned s.ret
          (some ("pSymFromAddr: (note may need to set to UNKNOWN here instead of return)"
            ++ t))) ∧
      ∀ (fuel : Nat) (pid tid : Int) (w : World) (s0 : Frame),
        setup o pid tid w = .ok s0 → (∀ i, i < k → Completes o i) → k < fuel →
        ∃ w', GetTrace o fuel pid tid w
          = some ⟨.returned ((List.range k).map (emittedItem o))
              (some ("pSymFromAddr: (note may need to set to UNKNOWN here instead of return)"
                ++ t)),
              w'⟩) := by
  refine ⟨fun hstatus hleave hsnap hfirst => ?_, fun t ht h1 h2 => ?_⟩
  · have hsoft : symHardStatus (o.SymFromAddr k).status = false := by
      rcases hstatus with h | h | h <;> rw [h] <;> decide
    obtain ⟨s', hs', hret⟩ := iteration_next_of_completes o k s
      ⟨henter, ⟨hpc, hwalk⟩, hsoft, hleave, fun _ => ⟨hsnap, hfirst⟩⟩
    refine ⟨s', emittedItem o k, hs', hret, emittedItem_RetAddress o k, ?_, ?_⟩
    · simp only [emittedItem, hsym, if_false, unresolvedItem]
    · simp only [emittedItem, hsym, if_false, unresolvedItem]
      split
      · exact Or.inr rfl
      · exact Or.inl rfl
  · have hhard : symHardStatus (o.SymFromAddr k).status = true := by
      rw [ht]
      simp [symHardStatus, benignStatus, invalidAddressStatus, h1, h2]
    have htext : errorText (o.SymFromAddr k).status = t := by rw [ht]; rfl
    have hstop : ∀ s1, iteration o k s1 = .stop ((s1.defer .LeaveCriticalSection).doReturn
        (some ("pSymFromAddr: (note may need to set to UNKNOWN here instead of return)"
          ++ t))) := by
      intro s1
      rw [← htext]
      exact (iteration_hard_stop o k s1).2.1 henter hpc hwalk hhard
    refine ⟨⟨_, hstop s, by simp⟩, fun fuel pid tid w s0 hsetup hprev hfuel => ?_⟩
    exact GetTrace_stop_after o fuel pid tid w s0 k _ hsetup hprev hfuel hstop

/-- C7, amended, at the second frame of `walkingOS [0x401234, 0x500000]`, whose
lookup returns 0 with the status `Attempt to access invalid address.`, and at the
only frame of `moduleNotFoundOS`, whose lookup returns 0 with the status `The
specified module could not be found.`. -/
theorem iteration_unresolved_soft_witness :
    (∃ s' it, iteration (walkingOS [0x401234, 0x500000]) 1 ⟨[], [], freshWorld⟩ = .next s' ∧
      s'.ret = [] ++ [it] ∧
      it.RetAddress = ((walkingOS [0x401234, 0x500000]).StackWalk64 1).pc ∧
      it.FuncName = "" ∧
      (it.ModName = "UNKNOWN" ∨
        it.ModName = (walkingOS [0x401234, 0x500000]).filepathBase
          ((walkingOS [0x401234, 0x500000]).Snapshot 1).first.ExePath)) ∧
    (∃ w', GetTrace moduleNotFoundOS 2 4242 77 freshWorld
      = some ⟨.returned ((List.range 0).map (emittedItem moduleNotFoundOS))
          (some ("pSymFromAddr: (note may need to set to UNKNOWN here instead of return)"
            ++ "The specified module could not be found.")),
          w'⟩) :=
  ⟨(iteration_unresolved_soft (walkingOS [0x401234, 0x500000]) 1 ⟨[], [], freshWorld⟩
      (by decide) (by decide) (by decide) (by decide)).1
      (Or.inr (Or.inr rfl)) (by decide) rfl rfl,
    ((iteration_unresolved_soft moduleNotFoundOS 0 ⟨[], [], freshWorld⟩
      (by decide) (by decide) (by decide) (by decide)).2
      "The specified module could not be found." rfl (by decide) (by decide)).2
      2 4242 77 freshWorld
      ⟨[], [.SymCleanup 0x64, .ResumeThread 0x68, .CloseHandle 0x68, .CloseHandle 0x64],
        ⟨1, [0x64, 0x68], []⟩⟩
      rfl (fun i hi => absurd hi (by omega)) (by decide)⟩

/-- C7 fails as stated: when `SymFromAddr` returns 0 with the status `The specified
module could not be found.`, `GetTrace` returns no item for the frame and an error
for the lookup. -/
theorem GetTrace_module_not_found_aborts :
    hardStatus (moduleNotFoundOS.EnterCriticalSection 0) = false ∧
    (moduleNotFoundOS.StackWalk64 0).success ≠ 0 ∧
    (moduleNotFoundOS.StackWalk64 0).pc ≠ 0 ∧
    (moduleNotFoundOS.SymFromAddr 0).success ≠ 1 ∧
    (moduleNotFoundOS.SymFromAddr 0).status
      = some "The specified module could not be found." ∧
    GetTrace moduleNotFoundOS 2 4242 77 freshWorld
      = some ⟨.returned []
          (some ("pSymFromAddr: (note may need to set to UNKNOWN here instead of return)"
            ++ "The specified module could not be found.")),
          ⟨0, [0x64, 0x68], [0x68, 0x64]⟩⟩ :=
  ⟨by decide, by decide, by decide, by decide, rfl, by decide⟩

/-! ## C8: hard errors -/

/-- What `GetTrace` returns on a hard error, for every operating system.  When the
steps before the loop succeed, the iterations before iteration `k` (counted from 0)
each append their item, and iteration `k` meets a hard status at
`EnterCriticalSection`, at `SymFromAddr` or at `LeaveCriticalSection`, `GetTrace`
returns the `k` items of the earlier iterations, in order, and an error that is not
nil: `EnterCriticalSection: `, `pSymFromAddr: (note may need to set to UNKNOWN here
instead of return)` or `LeaveCriticalSection: `, followed by the status text of
that call.  When a step before the loop fails, `GetTrace` returns an empty list and
an error that is not nil and starts with the name of the failing call. -/
theorem GetTrace_hard_error (o : OS) (fuel : Nat) (pid tid : Int) (w : World) (k : Nat)
    (hprev : ∀ i, i < k → Completes o i) (hfuel : k < fuel) :
    (∀ s0, setup o pid tid w = .ok s0 →
      (hardStatus (o.EnterCriticalSection k) = true →
        ∃ w', GetTrace o fuel pid tid w
          = some ⟨.returned ((List.range k).map (emittedItem o))
              (some ("EnterCriticalSection: " ++ errorText (o.EnterCriticalSection k))),
              w'⟩) ∧
      (hardStatus (o.EnterCriticalSection k) = false →
        (o.StackWalk64 k).pc ≠ 0 → (o.StackWalk64 k).success ≠ 0 →
        symHardStatus (o.SymFromAddr k).status = true →
        ∃ w', GetTrace o fuel pid tid w
          = some ⟨.returned ((List.range k).map (emittedItem o))
              (some ("pSymFromAddr: (note may need to set to UNKNOWN here instead of return)"
                ++ errorText (o.SymFromAddr k).status)),
              w'⟩) ∧
      (hardStatus (o.EnterCriticalSection k) = false →
        (o.StackWalk64 k).pc ≠ 0 → (o.StackWalk64 k).success ≠ 0 →
        symHardStatus (o.SymFromAddr k).status = false →
        hardStatus (o.LeaveCriticalSection k) = true →
        ∃ w', GetTrace o fuel pid tid w
          = some ⟨.returned ((List.range k).map (emittedItem o))
              (some ("LeaveCriticalSection: " ++ errorText (o.LeaveCriticalSection k))),
              w'⟩)) ∧
    (∀ f, setup o pid tid w = .error f →
      GetTrace o fuel pid tid w = some f ∧
      ((∃ e, (o.OpenProcess (toUint32 pid)).err = some e ∧
        f.exit = .returned [] (some ("OpenProcess: " ++ e))) ∨
      (∃ e, (o.OpenThread (toUint32 tid)).err = some e ∧
        f.exit = .returned [] (some ("OpenThread: " ++ e))) ∨
      (hardStatus o.SuspendThread.status = true ∧
        f.exit = .returned []
          (some ("SuspendThread: " ++ errorText o.SuspendThread.status))) ∨
      (hardStatus o.GetThreadContext.status = true ∧
        f.exit = .returned []
          (some ("GetThreadContext: " ++ errorText o.GetThreadContext.status))) ∨
      (o.GetThreadContext.Rip = 0 ∧
        f.exit = .returned [] (some "GetThreadContext: invalid context, RIP is 0x0")) ∨
      (hardStatus o.SymInitialize = true ∧
        f.exit = .returned [] (some ("SymInitialize: " ++ errorText o.SymInitialize))) ∨
      (hardStatus o.InitializeCriticalSection = true ∧
        f.exit = .returned []
          (some ("InitializeCriticalSection: "
            ++ errorText o.InitializeCriticalSection))))) := by
  refine ⟨fun s0 hsetup => ⟨fun h1 => ?_, fun h1 h2 h3 h4 => ?_, fun h1 h2 h3 h4 h5 => ?_⟩,
    fun f hf => ⟨?_, setup_error_exit o pid tid w f hf⟩⟩
  · exact GetTrace_stop_after o fuel pid tid w s0 k _ hsetup hprev hfuel
      (fun s => (iteration_hard_stop o k s).1 h1)
  · exact GetTrace_stop_after o fuel pid tid w s0 k _ hsetup hprev hfuel
      (fun s => (iteration_hard_stop o k s).2.1 h1 h2 h3 h4)
  · exact GetTrace_stop_after o fuel pid tid w s0 k _ hsetup hprev hfuel
      (fun s => (iteration_hard_stop o k s).2.2 h1 h2 h3 h4 h5)
  · unfold GetTrace
    rw [hf]

/-- The theorem `GetTrace_hard_error` at a walk whose second iteration meets a hard
status at `LeaveCriticalSection`, and at a run whose `OpenProcess` fails. -/
theorem GetTrace_hard_error_witness :
    (∃ w', GetTrace hardLeaveOS 3 4242 77 freshWorld
      = some ⟨.returned ((List.range 1).map (emittedItem hardLeaveOS))
          (some ("LeaveCriticalSection: " ++ errorText (hardLeaveOS.LeaveCriticalSection 1))),
          w'⟩) ∧
    (List.range 1).map (emittedItem hardLeaveOS) = [⟨0x401234, 0, "target.exe", "", 0x1234⟩] ∧
    GetTrace deniedOS 3 4242 77 freshWorld
      = some ⟨.returned [] (some "OpenProcess: Access is denied."), ⟨0, [], [0]⟩⟩ :=
  ⟨((GetTrace_hard_error hardLeaveOS 3 4242 77 freshWorld 1
      (fun i hi => by
        have h0 : i = 0 := by omega
        subst h0
        exact ⟨by decide, by decide, by decide, by decide, fun _ => ⟨rfl, rfl⟩⟩)
      (by decide)).1
      ⟨[], [.SymCleanup 0x64, .ResumeThread 0x68, .CloseHandle 0x68, .CloseHandle 0x64],
        ⟨1, [0x64, 0x68], []⟩⟩ rfl).2.2
      (by decide) (by decide) (by decide) (by decide) (by decide),
    by decide,
    ((GetTrace_hard_error deniedOS 3 4242 77 freshWorld 0
      (fun i hi => absurd hi (by omega)) (by decide)).2
      ⟨.returned [] (some "OpenProcess: Access is denied."), ⟨0, [], [0]⟩⟩ rfl).1⟩

/-- C8 fails on the code.  When `SymFromAddr` reports the hard status `The specified
module could not be found.` in the second iteration, `GetTrace` returns the one
item of the first iteration and an error that is not nil, but the text of the error
is `pSymFromAddr: (note may need to set to UNKNOWN here instead of return)The
specified module could not be found.`: not the name of the call followed by its
status text, with or without the separator `: ` and with or without the `p` of the
variable's name.  The other sites do write the name, `: ` and the status text, as
`LeaveCriticalSection` does in the second iteration of `hardLeaveOS`. -/
theorem GetTrace_symbol_error_text :
    symHardStatus (hardSymOS.SymFromAddr 1).status = true ∧
    errorText (hardSymOS.SymFromAddr 1).status = "The specified module could not be found." ∧
    GetTrace hardSymOS 3 4242 77 freshWorld
      = some ⟨.returned [⟨0x401234, 0, "target.exe", "", 0x1234⟩]
          (some ("pSymFromAddr: (note may need to set to UNKNOWN here instead of return)"
            ++ "The specified module could not be found.")),
          ⟨0, [0x64, 0x68, 0x70], [0x70, 0x68, 0x64]⟩⟩ ∧
    ("pSymFromAddr: (note may need to set to UNKNOWN here instead of return)"
        ++ "The specified module could not be found."
      ∉ ["SymFromAddr: The specified module could not be found.",
        "pSymFromAddr: The specified module could not be found.",
        "SymFromAddrThe specified module could not be found.",
        "pSymFromAddrThe specified module could not be found."]) ∧
    GetTrace hardLeaveOS 3 4242 77 freshWorld
      = some ⟨.returned [⟨0x401234, 0, "target.exe", "", 0x1234⟩]
          (some "LeaveCriticalSection: Access is denied."),
          ⟨0, [0x64, 0x68, 0x70], [0x70, 0x68, 0x64]⟩⟩ :=
  ⟨by decide, by decide, by decide, by decide, by decide⟩

/-! ## C1: the suspend count -/

/-- C1 fails on the code.  With the thread running at the start (suspend count 0),
a `SuspendThread` that suspends it, one frame that resolves to no symbol and a
`CreateToolhelp32Snapshot` that fails, `log.Fatal` ends the process with the
deferred `ResumeThread` not run: the suspend count is left at 1.  With the thread
at the suspend count 127 at the start and a `SuspendThread` that fails, the
deferred `ResumeThread` still runs: the suspend count is left at 126. -/
theorem GetTrace_suspend_count_unbalanced :
    (snapshotFailsOS.SuspendThread.suspended = true ∧
      freshWorld.suspendCount = 0 ∧
      GetTrace snapshotFailsOS 2 4242 77 freshWorld
        = some ⟨.fatal "Access is denied.", ⟨1, [0x64, 0x68], []⟩⟩) ∧
    (suspendFailsOS.SuspendThread.suspended = false ∧
      GetTrace suspendFailsOS 2 4242 77 ⟨127, [], []⟩
        = some ⟨.returned []
            (some "SuspendThread: The recipient process has refused the signal."),
            ⟨126, [0x64, 0x68], [0x68, 0x64]⟩⟩) :=
  ⟨⟨rfl, rfl, by decide⟩, rfl, by decide⟩

/-! ## C2: the handles closed -/

/-- C2 fails on the code.  When `OpenProcess` fails, `CloseHandle` is called on the
handle 0 it returned, and nothing was opened.  When a symbol resolves,
`CloseHandle` is called on the module handle `0x7ff800000000`, which is not among
the handles opened.  When `log.Fatal` ends the process, the two handles opened are
not passed to `CloseHandle`. -/
theorem GetTrace_handles_unbalanced :
    ((deniedOS.OpenProcess (toUint32 4242)).err ≠ none ∧
      GetTrace deniedOS 2 4242 77 freshWorld
        = some ⟨.returned [] (some "OpenProcess: Access is denied."), ⟨0, [], [0]⟩⟩) ∧
    ((resolvingOS.GetModule 0).hModule = 0x7ff800000000 ∧
      GetTrace resolvingOS 2 4242 77 freshWorld
        = some ⟨.returned [⟨0x7ff800001234, 0x7ff800001000, "kernel32.dll", "foo", 0x234⟩]
            none, ⟨0, [0x64, 0x68], [0x7ff800000000, 0x68, 0x64]⟩⟩) ∧
    GetTrace snapshotFailsOS 2 4242 77 freshWorld
      = some ⟨.fatal "Access is denied.", ⟨1, [0x64, 0x68], []⟩⟩ :=
  ⟨⟨by decide, by decide⟩, ⟨rfl, by decide⟩, by decide⟩

/-! ## C10: the header of the symbol buffer -/

set_option maxRecDepth 8192 in
/-- C10 fails on the code.  The buffer of `makeSymbolBuffer` has 352 bytes (the 96
of `unsafe.Sizeof(iSYMBOL_INFO{})` and 256 more), its bytes 0 to 3 hold `0x58` and
every byte outside 0 to 3 and 80 to 83 is `0xcc`, but its bytes 80 to 83 hold 2000,
not `MAX_SYM_NAME`, which is 256: more than the 264 bytes that follow the `0x58`
bytes of the header, and more than the 256 bytes that follow the Go struct. -/
theorem makeSymbolBuffer_MaxNameLen :
    makeSymbolBuffer.length = 352 ∧
    le32 makeSymbolBuffer 0 = 0x58 ∧
    makeSymbolBuffer = [0x58, 0, 0, 0] ++ List.replicate 76 0xcc ++ [0xd0, 0x07, 0, 0]
      ++ List.replicate 268 0xcc ∧
    le32 makeSymbolBuffer 80 = 2000 ∧
    MAX_SYM_NAME = 256 ∧
    le32 makeSymbolBuffer 80 ≠ MAX_SYM_NAME ∧
    makeSymbolBuffer.length - le32 makeSymbolBuffer 0 = 264 ∧
    makeSymbolBuffer.length - structSize iSYMBOL_INFO_fields = 256 ∧
    makeSymbolBuffer.length - le32 makeSymbolBuffer 0 < le32 makeSymbolBuffer 80 :=
  ⟨rfl, rfl, rfl, rfl, rfl, by decide, rfl, rfl, by decide⟩

end Stacktrace
